import Mathlib

/-!
# Levant `scale-out` command

A shallow embedding of `command/scale_out.go` (`ScaleOutCommand.Run`) together
with the properties of its input validation, of the configuration it hands to
`scale.TriggerScalingEvent`, and of its exit status.

The three collaborators of `Run` that live outside the file (the flag parser,
`logging.SetupLogger` and `scale.TriggerScalingEvent`) are parameters of the
model, collected in `Env`.  Every call `Run` makes to the UI, to the logger
setup and to the scaling package is recorded, in program order, in a list of
`Event`s, so that "is called", "is never called" and "is called exactly once"
are statements about that list.
-/

namespace Levant

/-- Modelled from the spec: the constants `structs.ScalingDirectionOut` and
`structs.ScalingDirectionIn` of the `structs` package (direction: enum
Out, In, grow or shrink). -/
inductive ScalingDirection
  | Out
  | In
  deriving DecidableEq, Repr

/-- Modelled from the spec: the constants `structs.ScalingDirectionTypeCount`
and `structs.ScalingDirectionTypePercent` of the `structs` package
(magnitudeKind: enum Count, Percent). -/
inductive ScalingDirectionType
  | Count
  | Percent
  deriving DecidableEq, Repr

/-- Modelled from the spec: the struct `structs.ScalingConfig`, of which
`scale_out.go` uses the fields `Addr`, `Count`, `Direction`, `DirectionType`,
`JobID`, `Percent` and `TaskGroup`.  Go `int` fields are integers; a field of
enumeration type that was never assigned (the Go zero value) is `none`. -/
structure ScalingConfig where
  Addr : String
  Count : Int
  Direction : Option ScalingDirection
  DirectionType : Option ScalingDirectionType
  JobID : String
  Percent : Int
  TaskGroup : String
  deriving DecidableEq, Repr

/-- The value of `&structs.ScalingConfig{}` (line 67): every field zero. -/
def ScalingConfig.zero : ScalingConfig :=
  { Addr := "", Count := 0, Direction := none, DirectionType := none,
    JobID := "", Percent := 0, TaskGroup := "" }

/-- The outcome of a successful `flags.Parse(args)` (lines 73-84): the values
of the six variables registered on the flag set, and `flags.Args()`, the
positional arguments left after the flags. -/
structure ParsedFlags where
  address : String
  logLevel : String
  logFormat : String
  count : Int
  percent : Int
  taskGroup : String
  args : List String
  deriving DecidableEq, Repr

/-- The collaborators of `Run`.
* `flagParse args` is `flags.Parse(args)` on the flag set of lines 70-78:
  `none` when it returns an error, the parsed values otherwise.
* `setupLogger level format` is `logging.SetupLogger`: `some msg` is an error
  whose text is `msg`, `none` is success.
* `triggerScalingEvent config` is `scale.TriggerScalingEvent`. -/
structure Env where
  flagParse : List String → Option ParsedFlags
  setupLogger : String → String → Option String
  triggerScalingEvent : ScalingConfig → Bool

/-- A call made by `Run` to one of its collaborators. -/
inductive Event
  | uiError (msg : String)
  | setupLogger (level format : String)
  | triggerScalingEvent (config : ScalingConfig)
  deriving DecidableEq, Repr

/-- What a run of the command produces: its exit status and the calls it made,
in order. -/
structure RunResult where
  code : Int
  events : List Event
  deriving DecidableEq, Repr

/-- The count/percent check of line 93: true when the input is rejected. -/
def countPercentRejected (config : ScalingConfig) : Bool :=
  (config.Count == 0 && config.Percent == 0) || (decide (config.Count > 0) && decide (config.Percent > 0))

/-- Lines 98-104: the two assignments of `config.DirectionType`, in order. -/
def setDirectionType (config : ScalingConfig) : ScalingConfig :=
  let config :=
    if config.Count > 0 then
      { config with DirectionType := some ScalingDirectionType.Count }
    else config
  let config :=
    if config.Percent > 0 then
      { config with DirectionType := some ScalingDirectionType.Percent }
    else config
  config

/-- The config as it stands after line 91: direction fixed to `Out`, the four
flag-bound fields taken from the parsed flags, and the job identifier taken
from the first positional argument. -/
def buildConfig (flags : ParsedFlags) : ScalingConfig :=
  let config := ScalingConfig.zero
  let config := { config with Direction := some ScalingDirection.Out }
  let config := { config with
    Addr := flags.address, Count := flags.count,
    Percent := flags.percent, TaskGroup := flags.taskGroup }
  { config with JobID := flags.args.getD 0 "" }

/-- `ScaleOutCommand.Run` (lines 62-117).  The events are the calls `Run`
itself makes; what the flag package prints when `flags.Parse` fails is not
part of them.  No arithmetic is done on the two `int` flags, only the
comparisons of lines 93, 98 and 102, so they are unbounded integers here. -/
def ScaleOutCommand.Run (env : Env) (args : List String) : RunResult :=
  match env.flagParse args with
  | none => { code := 1, events := [] }
  | some flags =>
    let logL := flags.logLevel
    let logF := flags.logFormat
    let args := flags.args
    if args.length ≠ 1 then
      { code := 1,
        events := [Event.uiError "This command takes one argument: <job-name>"] }
    else
      let config := buildConfig flags
      if countPercentRejected config then
        { code := 1,
          events := [Event.uiError "You must set either -count or -percent flag to scale-out"] }
      else
        let config := setDirectionType config
        match env.setupLogger logL logF with
        | some err =>
          { code := 1, events := [Event.setupLogger logL logF, Event.uiError err] }
        | none =>
          let success := env.triggerScalingEvent config
          if !success then
            { code := 1,
              events := [Event.setupLogger logL logF, Event.triggerScalingEvent config] }
          else
            { code := 0,
              events := [Event.setupLogger logL logF, Event.triggerScalingEvent config] }

/-- The configs handed to `scale.TriggerScalingEvent`, in call order. -/
def RunResult.triggered (r : RunResult) : List ScalingConfig :=
  r.events.filterMap fun e =>
    match e with
    | Event.triggerScalingEvent config => some config
    | _ => none

/-- The messages reported through `UI.Error`, in call order. -/
def RunResult.uiErrors (r : RunResult) : List String :=
  r.events.filterMap fun e =>
    match e with
    | Event.uiError msg => some msg
    | _ => none

/-- The `(level, format)` pairs passed to `logging.SetupLogger`, in call
order. -/
def RunResult.loggerCalls (r : RunResult) : List (String × String) :=
  r.events.filterMap fun e =>
    match e with
    | Event.setupLogger level format => some (level, format)
    | _ => none

/-- The config `Run` hands over once the count/percent check has passed. -/
def finalConfig (flags : ParsedFlags) : ScalingConfig :=
  setDirectionType (buildConfig flags)

/-! ## The percent computation of the scaling package -/

/-- Modelled from the spec: the percent-mode delta of the ScaleCalculator,
which runs inside `scale.TriggerScalingEvent` (package `scale`, absent from the
available source): delta = ceiling(currentCount × magnitude / 100), the
ceiling taken exactly on integers. -/
def percentDelta (currentCount magnitude : Nat) : Nat :=
  (currentCount * magnitude + 99) / 100

/-- Modelled from the spec: step 2 of the ScaleCalculator of package `scale`
(absent from the available source).  Count mode: delta = magnitude, flat;
percent mode: `percentDelta`. -/
def scaleDelta (kind : ScalingDirectionType) (magnitude currentCount : Nat) : Nat :=
  match kind with
  | ScalingDirectionType.Count => magnitude
  | ScalingDirectionType.Percent => percentDelta currentCount magnitude

/-- Modelled from the spec: step 3 of the ScaleCalculator of package `scale`
(absent from the available source): targetCount = currentCount + delta (Out)
or currentCount − delta (In), floored at 0. -/
def applyDelta (direction : ScalingDirection) (currentCount delta : Nat) : Nat :=
  match direction with
  | ScalingDirection.Out => currentCount + delta
  | ScalingDirection.In => currentCount - delta

/-- Modelled from the spec: the target count the ScaleCalculator of package
`scale` (absent from the available source) computes for one group from the
config `Run` hands over and the group's current count.  The magnitude is
`config.Count` in count mode and `config.Percent` in percent mode; a config
whose direction or direction type was never set describes no scaling
request. -/
def scaledCount (config : ScalingConfig) (currentCount : Nat) : Option Nat :=
  match config.Direction, config.DirectionType with
  | some direction, some ScalingDirectionType.Count =>
    some (applyDelta direction currentCount
      (scaleDelta ScalingDirectionType.Count config.Count.toNat currentCount))
  | some direction, some ScalingDirectionType.Percent =>
    some (applyDelta direction currentCount
      (scaleDelta ScalingDirectionType.Percent config.Percent.toNat currentCount))
  | _, _ => none

/-! ## Concrete invocations -/

/-- The values the six flag variables hold when no flag is given: the
defaults registered at lines 73-78. -/
def defaultFlags : ParsedFlags :=
  { address := "", logLevel := "INFO", logFormat := "HUMAN",
    count := 0, percent := 0, taskGroup := "", args := [] }

/-- An environment for one concrete invocation: the flag parser turns the
command line `cmdline` into `flags` (any other command line is a parse
error), the logger setup answers `logErr`, and the scaling event answers
`success`. -/
def envFor (cmdline : List String) (flags : ParsedFlags) (logErr : Option String)
    (success : Bool) : Env :=
  { flagParse := fun a => if a = cmdline then some flags else none,
    setupLogger := fun _ _ => logErr,
    triggerScalingEvent := fun _ => success }

/-! ## Case analysis of `Run` -/

theorem countPercentRejected_iff (config : ScalingConfig) :
    countPercentRejected config = true ↔
      (config.Count = 0 ∧ config.Percent = 0) ∨ (0 < config.Count ∧ 0 < config.Percent) := by
  simp [countPercentRejected]

theorem buildConfig_Count (flags : ParsedFlags) : (buildConfig flags).Count = flags.count := rfl

theorem buildConfig_Percent (flags : ParsedFlags) : (buildConfig flags).Percent = flags.percent := rfl

theorem buildConfig_Direction (flags : ParsedFlags) :
    (buildConfig flags).Direction = some ScalingDirection.Out := rfl

theorem buildConfig_JobID (flags : ParsedFlags) :
    (buildConfig flags).JobID = flags.args.getD 0 "" := rfl

theorem setDirectionType_Count (config : ScalingConfig) :
    (setDirectionType config).Count = config.Count := by
  simp only [setDirectionType]
  split_ifs <;> rfl

theorem setDirectionType_Percent (config : ScalingConfig) :
    (setDirectionType config).Percent = config.Percent := by
  simp only [setDirectionType]
  split_ifs <;> rfl

theorem setDirectionType_Direction (config : ScalingConfig) :
    (setDirectionType config).Direction = config.Direction := by
  simp only [setDirectionType]
  split_ifs <;> rfl

theorem setDirectionType_JobID (config : ScalingConfig) :
    (setDirectionType config).JobID = config.JobID := by
  simp only [setDirectionType]
  split_ifs <;> rfl

theorem Run_parse_error (env : Env) (args : List String) (h : env.flagParse args = none) :
    ScaleOutCommand.Run env args = { code := 1, events := [] } := by
  simp [ScaleOutCommand.Run, h]

theorem Run_wrong_arity (env : Env) (args : List String) (flags : ParsedFlags)
    (h : env.flagParse args = some flags) (hlen : flags.args.length ≠ 1) :
    ScaleOutCommand.Run env args =
      { code := 1,
        events := [Event.uiError "This command takes one argument: <job-name>"] } := by
  simp [ScaleOutCommand.Run, h, hlen]

theorem Run_rejected (env : Env) (args : List String) (flags : ParsedFlags)
    (h : env.flagParse args = some flags) (hlen : flags.args.length = 1)
    (hrej : countPercentRejected (buildConfig flags) = true) :
    ScaleOutCommand.Run env args =
      { code := 1,
        events := [Event.uiError "You must set either -count or -percent flag to scale-out"] } := by
  simp [ScaleOutCommand.Run, h, hlen, hrej]

theorem Run_logger_error (env : Env) (args : List String) (flags : ParsedFlags)
    (h : env.flagParse args = some flags) (hlen : flags.args.length = 1)
    (hrej : countPercentRejected (buildConfig flags) = false) (err : String)
    (hlog : env.setupLogger flags.logLevel flags.logFormat = some err) :
    ScaleOutCommand.Run env args =
      { code := 1,
        events := [Event.setupLogger flags.logLevel flags.logFormat, Event.uiError err] } := by
  simp [ScaleOutCommand.Run, h, hlen, hrej, hlog]

theorem Run_triggered (env : Env) (args : List String) (flags : ParsedFlags)
    (h : env.flagParse args = some flags) (hlen : flags.args.length = 1)
    (hrej : countPercentRejected (buildConfig flags) = false)
    (hlog : env.setupLogger flags.logLevel flags.logFormat = none) :
    ScaleOutCommand.Run env args =
      { code := if env.triggerScalingEvent (finalConfig flags) then 0 else 1,
        events := [Event.setupLogger flags.logLevel flags.logFormat,
                   Event.triggerScalingEvent (finalConfig flags)] } := by
  unfold finalConfig
  cases ht : env.triggerScalingEvent (setDirectionType (buildConfig flags)) <;>
    simp [ScaleOutCommand.Run, h, hlen, hrej, hlog, ht]

/-- Whatever the collaborators do, a config reaches `scale.TriggerScalingEvent`
only as `finalConfig` of flags that parsed, with one positional argument, and
that passed the count/percent check. -/
theorem triggered_cases (env : Env) (args : List String) (config : ScalingConfig)
    (hmem : config ∈ (ScaleOutCommand.Run env args).triggered) :
    ∃ flags, env.flagParse args = some flags ∧ flags.args.length = 1 ∧
      countPercentRejected (buildConfig flags) = false ∧ config = finalConfig flags := by
  cases h : env.flagParse args with
  | none => simp [Run_parse_error env args h, RunResult.triggered] at hmem
  | some flags =>
    by_cases hlen : flags.args.length = 1
    · cases hrej : countPercentRejected (buildConfig flags) with
      | true => simp [Run_rejected env args flags h hlen hrej, RunResult.triggered] at hmem
      | false =>
        cases hlog : env.setupLogger flags.logLevel flags.logFormat with
        | some err =>
          simp [Run_logger_error env args flags h hlen hrej err hlog, RunResult.triggered] at hmem
        | none =>
          simp [Run_triggered env args flags h hlen hrej hlog, RunResult.triggered] at hmem
          exact ⟨flags, rfl, hlen, hrej, hmem⟩
    · simp [Run_wrong_arity env args flags h hlen, RunResult.triggered] at hmem

theorem countPercentRejected_buildConfig (flags : ParsedFlags) :
    countPercentRejected (buildConfig flags) = true ↔
      (flags.count = 0 ∧ flags.percent = 0) ∨ (0 < flags.count ∧ 0 < flags.percent) := by
  rw [countPercentRejected_iff, buildConfig_Count, buildConfig_Percent]

theorem countPercentRejected_buildConfig_false (flags : ParsedFlags) :
    countPercentRejected (buildConfig flags) = false ↔
      ¬ ((flags.count = 0 ∧ flags.percent = 0) ∨ (0 < flags.count ∧ 0 < flags.percent)) := by
  rw [← countPercentRejected_buildConfig, Bool.not_eq_true]

/-- The integer expression of `percentDelta` is the ceiling of the exact
quotient. -/
theorem percentDelta_eq_ceil (c m : Nat) :
    (percentDelta c m : ℤ) = ⌈((c : ℚ) * (m : ℚ)) / 100⌉ := by
  symm
  rw [Int.ceil_eq_iff]
  unfold percentDelta
  generalize hq : (c * m + 99) / 100 = q
  have h1 : q * 100 ≤ c * m + 99 := by omega
  have h3 : c * m ≤ q * 100 := by omega
  have h1q : (q : ℚ) * 100 ≤ (c : ℚ) * m + 99 := by exact_mod_cast h1
  have h3q : (c : ℚ) * m ≤ (q : ℚ) * 100 := by exact_mod_cast h3
  rw [Int.cast_natCast]
  constructor
  · rw [lt_div_iff₀ (by norm_num)]
    linarith
  · rw [div_le_iff₀ (by norm_num)]
    exact h3q

/-! ## Validation -/

/-- C1: when the flags parse and there is exactly one positional argument, a
count/percent pair that is zero-zero or positive-positive makes `Run` report
the error through the UI, return 1, and never call
`scale.TriggerScalingEvent`. -/
theorem C1_zero_zero_or_both_positive_rejected (env : Env) (args : List String)
    (flags : ParsedFlags) (hparse : env.flagParse args = some flags)
    (hlen : flags.args.length = 1)
    (hbad : (flags.count = 0 ∧ flags.percent = 0) ∨ (0 < flags.count ∧ 0 < flags.percent)) :
    (ScaleOutCommand.Run env args).uiErrors =
        ["You must set either -count or -percent flag to scale-out"] ∧
      (ScaleOutCommand.Run env args).code = 1 ∧
      (ScaleOutCommand.Run env args).triggered = [] := by
  have hrej := (countPercentRejected_buildConfig flags).mpr hbad
  rw [Run_rejected env args flags hparse hlen hrej]
  simp [RunResult.uiErrors, RunResult.triggered]

theorem C1_witness :
    (envFor ["-count=2", "-percent=10", "web"]
        { defaultFlags with count := 2, percent := 10, args := ["web"] } none true).flagParse
        ["-count=2", "-percent=10", "web"] =
      some { defaultFlags with count := 2, percent := 10, args := ["web"] } ∧
    (ScaleOutCommand.Run
        (envFor ["-count=2", "-percent=10", "web"]
          { defaultFlags with count := 2, percent := 10, args := ["web"] } none true)
        ["-count=2", "-percent=10", "web"]).uiErrors =
        ["You must set either -count or -percent flag to scale-out"] ∧
      (ScaleOutCommand.Run
        (envFor ["-count=2", "-percent=10", "web"]
          { defaultFlags with count := 2, percent := 10, args := ["web"] } none true)
        ["-count=2", "-percent=10", "web"]).code = 1 ∧
      (ScaleOutCommand.Run
        (envFor ["-count=2", "-percent=10", "web"]
          { defaultFlags with count := 2, percent := 10, args := ["web"] } none true)
        ["-count=2", "-percent=10", "web"]).triggered = [] :=
  ⟨by decide,
   C1_zero_zero_or_both_positive_rejected _ _
     { defaultFlags with count := 2, percent := 10, args := ["web"] }
     (by decide) (by decide) (Or.inr ⟨by decide, by decide⟩)⟩

/-- C4: an invocation rejected as invalid input (a number of positional
arguments other than one, or a failing count/percent check) makes exactly one
call, a `UI.Error`, and returns 1: neither `logging.SetupLogger` nor
`scale.TriggerScalingEvent` is called. -/
theorem C4_invalid_input_one_error_no_calls (env : Env) (args : List String)
    (flags : ParsedFlags) (hparse : env.flagParse args = some flags)
    (hinvalid : flags.args.length ≠ 1 ∨
      ((flags.count = 0 ∧ flags.percent = 0) ∨ (0 < flags.count ∧ 0 < flags.percent))) :
    (∃ msg, (ScaleOutCommand.Run env args).events = [Event.uiError msg]) ∧
      (ScaleOutCommand.Run env args).uiErrors.length = 1 ∧
      (ScaleOutCommand.Run env args).code = 1 ∧
      (ScaleOutCommand.Run env args).loggerCalls = [] ∧
      (ScaleOutCommand.Run env args).triggered = [] := by
  by_cases hlen : flags.args.length = 1
  · have hbad := hinvalid.resolve_left (fun h => h hlen)
    have hrej := (countPercentRejected_buildConfig flags).mpr hbad
    rw [Run_rejected env args flags hparse hlen hrej]
    simp [RunResult.uiErrors, RunResult.triggered, RunResult.loggerCalls]
  · rw [Run_wrong_arity env args flags hparse hlen]
    simp [RunResult.uiErrors, RunResult.triggered, RunResult.loggerCalls]

theorem C4_witness :
    (envFor ["-count=3"] { defaultFlags with count := 3 } none true).flagParse ["-count=3"] =
      some { defaultFlags with count := 3 } ∧
    (ScaleOutCommand.Run (envFor ["-count=3"] { defaultFlags with count := 3 } none true)
        ["-count=3"]).uiErrors.length = 1 ∧
    (ScaleOutCommand.Run (envFor ["-count=3"] { defaultFlags with count := 3 } none true)
        ["-count=3"]).code = 1 ∧
    (ScaleOutCommand.Run (envFor ["-count=3"] { defaultFlags with count := 3 } none true)
        ["-count=3"]).loggerCalls = [] ∧
    (ScaleOutCommand.Run (envFor ["-count=3"] { defaultFlags with count := 3 } none true)
        ["-count=3"]).triggered = [] :=
  ⟨by decide,
   (C4_invalid_input_one_error_no_calls _ _ { defaultFlags with count := 3 }
     (by decide) (Or.inl (by decide))).2⟩

/-- C2 (failing inputs): with `-count=-1` and no `-percent`, the check of line
93 lets the config through: `scale.TriggerScalingEvent` receives `Count = -1`
and `Percent = 0`, neither of which is positive, with `DirectionType` never
assigned, and `Run` returns 0.  With `-count=5 -percent=-3` both flags are
set and the config is handed over as well, `Percent` being `-3`, not zero. -/
theorem C2_negative_value_reaches_trigger :
    ScaleOutCommand.Run
        (envFor ["-count=-1", "web"] { defaultFlags with count := -1, args := ["web"] } none true)
        ["-count=-1", "web"] =
      { code := 0,
        events :=
          [Event.setupLogger "INFO" "HUMAN",
           Event.triggerScalingEvent
             { Addr := "", Count := -1, Direction := some ScalingDirection.Out,
               DirectionType := none, JobID := "web", Percent := 0, TaskGroup := "" }] } ∧
    ScaleOutCommand.Run
        (envFor ["-count=5", "-percent=-3", "web"]
          { defaultFlags with count := 5, percent := -3, args := ["web"] } none true)
        ["-count=5", "-percent=-3", "web"] =
      { code := 0,
        events :=
          [Event.setupLogger "INFO" "HUMAN",
           Event.triggerScalingEvent
             { Addr := "", Count := 5, Direction := some ScalingDirection.Out,
               DirectionType := some ScalingDirectionType.Count, JobID := "web",
               Percent := -3, TaskGroup := "" }] } := by
  constructor <;> decide

/-- C5 (as stated, fails): with the single positional argument `""` and
`-count=1`, `Run` does not fail validation: it calls
`scale.TriggerScalingEvent` with `JobID = ""` and returns 0. -/
theorem C5_empty_job_id_reaches_trigger :
    ¬ ((ScaleOutCommand.Run
          (envFor ["-count=1", ""] { defaultFlags with count := 1, args := [""] } none true)
          ["-count=1", ""]).code ≠ 0 ∧
       ∀ config ∈ (ScaleOutCommand.Run
          (envFor ["-count=1", ""] { defaultFlags with count := 1, args := [""] } none true)
          ["-count=1", ""]).triggered, config.JobID ≠ "") := by
  decide

/-- C5 (amended): when the job identifier is missing, that is, when the
number of positional arguments is not one, `Run` returns 1 and never calls
`scale.TriggerScalingEvent`, whatever the other flags; and every config that
does reach `scale.TriggerScalingEvent` carries the single positional argument,
unchanged, as its `JobID`. -/
theorem C5_missing_job_id_rejected (env : Env) (args : List String)
    (flags : ParsedFlags) (hparse : env.flagParse args = some flags) :
    (flags.args.length ≠ 1 →
        (ScaleOutCommand.Run env args).code = 1 ∧
          (ScaleOutCommand.Run env args).triggered = []) ∧
      ∀ config ∈ (ScaleOutCommand.Run env args).triggered, flags.args = [config.JobID] := by
  constructor
  · intro hlen
    rw [Run_wrong_arity env args flags hparse hlen]
    simp [RunResult.triggered]
  · intro config hmem
    obtain ⟨flags2, hparse2, hlen, -, hcfg⟩ := triggered_cases env args config hmem
    rw [hparse] at hparse2
    cases hparse2
    rw [hcfg, finalConfig, setDirectionType_JobID, buildConfig_JobID]
    match hargs : flags.args, hlen with
    | [job], _ => rfl

theorem C5_witness :
    (ScaleOutCommand.Run
        (envFor ["-percent=20"] { defaultFlags with percent := 20 } none true)
        ["-percent=20"]).code = 1 ∧
      (ScaleOutCommand.Run
        (envFor ["-percent=20"] { defaultFlags with percent := 20 } none true)
        ["-percent=20"]).triggered = [] :=
  (C5_missing_job_id_rejected
    (envFor ["-percent=20"] { defaultFlags with percent := 20 } none true)
    ["-percent=20"] { defaultFlags with percent := 20 } (by decide)).1 (by decide)

/-! ## Accepted input -/

/-- C6: for the scale-out command a percent above 100 with count 0 passes the
check: given one positional argument and a successful logger setup, the config
reaches `scale.TriggerScalingEvent`, exactly once, with `Percent` equal to the
flag value and direction type `Percent`. -/
theorem C6_percent_above_100_accepted (env : Env) (args : List String)
    (flags : ParsedFlags) (hparse : env.flagParse args = some flags)
    (hlen : flags.args.length = 1) (hcount : flags.count = 0) (hpercent : 100 < flags.percent)
    (hlog : env.setupLogger flags.logLevel flags.logFormat = none) :
    countPercentRejected (buildConfig flags) = false ∧
      ∃ config, (ScaleOutCommand.Run env args).triggered = [config] ∧
        config.Percent = flags.percent ∧
        config.DirectionType = some ScalingDirectionType.Percent := by
  have hrej : countPercentRejected (buildConfig flags) = false := by
    rw [countPercentRejected_buildConfig_false]
    omega
  refine ⟨hrej, finalConfig flags, ?_, ?_, ?_⟩
  · rw [Run_triggered env args flags hparse hlen hrej hlog]
    simp [RunResult.triggered]
  · rw [finalConfig, setDirectionType_Percent, buildConfig_Percent]
  · have hc : ¬ (buildConfig flags).Count > 0 := by rw [buildConfig_Count]; omega
    have hp : (buildConfig flags).Percent > 0 := by rw [buildConfig_Percent]; omega
    simp only [finalConfig, setDirectionType]
    rw [if_neg hc, if_pos hp]

theorem C6_witness :
    countPercentRejected
        (buildConfig { defaultFlags with percent := 250, args := ["web"] }) = false ∧
      ∃ config,
        (ScaleOutCommand.Run
          (envFor ["-percent=250", "web"]
            { defaultFlags with percent := 250, args := ["web"] } none true)
          ["-percent=250", "web"]).triggered = [config] ∧
        config.Percent = 250 ∧
        config.DirectionType = some ScalingDirectionType.Percent :=
  C6_percent_above_100_accepted
    (envFor ["-percent=250", "web"] { defaultFlags with percent := 250, args := ["web"] } none true)
    ["-percent=250", "web"] { defaultFlags with percent := 250, args := ["web"] }
    (by decide) (by decide) (by decide) (by decide) (by decide)

/-- C7: a count/percent pair in which exactly one value is positive and the
other is zero passes the check: with the flags parsed, one positional argument
and a successful logger setup, `Run` calls `scale.TriggerScalingEvent` exactly
once, with `Count` and `Percent` as given. -/
theorem C7_exactly_one_positive_accepted (env : Env) (args : List String)
    (flags : ParsedFlags) (hparse : env.flagParse args = some flags)
    (hlen : flags.args.length = 1)
    (hone : (0 < flags.count ∧ flags.percent = 0) ∨ (flags.count = 0 ∧ 0 < flags.percent))
    (hlog : env.setupLogger flags.logLevel flags.logFormat = none) :
    countPercentRejected (buildConfig flags) = false ∧
      ∃ config, (ScaleOutCommand.Run env args).triggered = [config] ∧
        config.Count = flags.count ∧ config.Percent = flags.percent := by
  have hrej : countPercentRejected (buildConfig flags) = false := by
    rw [countPercentRejected_buildConfig_false]
    omega
  refine ⟨hrej, finalConfig flags, ?_, ?_, ?_⟩
  · rw [Run_triggered env args flags hparse hlen hrej hlog]
    simp [RunResult.triggered]
  · rw [finalConfig, setDirectionType_Count, buildConfig_Count]
  · rw [finalConfig, setDirectionType_Percent, buildConfig_Percent]

theorem C7_witness :
    countPercentRejected
        (buildConfig { defaultFlags with count := 3, taskGroup := "api", args := ["web"] }) = false ∧
      ∃ config,
        (ScaleOutCommand.Run
          (envFor ["-count=3", "-task-group=api", "web"]
            { defaultFlags with count := 3, taskGroup := "api", args := ["web"] } none false)
          ["-count=3", "-task-group=api", "web"]).triggered = [config] ∧
        config.Count = 3 ∧ config.Percent = 0 :=
  C7_exactly_one_positive_accepted
    (envFor ["-count=3", "-task-group=api", "web"]
      { defaultFlags with count := 3, taskGroup := "api", args := ["web"] } none false)
    ["-count=3", "-task-group=api", "web"]
    { defaultFlags with count := 3, taskGroup := "api", args := ["web"] }
    (by decide) (by decide) (Or.inl ⟨by decide, by decide⟩) (by decide)

/-! ## Exit status -/

/-- C3: `Run` returns only 0 or 1, and it returns 0 exactly when the flags
parse, there is exactly one positional argument, the count/percent check
passes, `logging.SetupLogger` returns no error and
`scale.TriggerScalingEvent` returns true; in every other case it returns 1. -/
theorem C3_exit_status (env : Env) (args : List String) :
    ((ScaleOutCommand.Run env args).code = 0 ∨ (ScaleOutCommand.Run env args).code = 1) ∧
      ((ScaleOutCommand.Run env args).code = 0 ↔
        ∃ flags, env.flagParse args = some flags ∧ flags.args.length = 1 ∧
          ¬ ((flags.count = 0 ∧ flags.percent = 0) ∨ (0 < flags.count ∧ 0 < flags.percent)) ∧
          env.setupLogger flags.logLevel flags.logFormat = none ∧
          env.triggerScalingEvent (finalConfig flags) = true) ∧
      ((ScaleOutCommand.Run env args).code ≠ 0 → (ScaleOutCommand.Run env args).code = 1) := by
  cases hparse : env.flagParse args with
  | none => simp [Run_parse_error env args hparse]
  | some flags =>
    by_cases hlen : flags.args.length = 1
    · cases hrej : countPercentRejected (buildConfig flags) with
      | true =>
        have hbad := (countPercentRejected_buildConfig flags).mp hrej
        rw [Run_rejected env args flags hparse hlen hrej]
        simp only [one_ne_zero, false_or, true_and, false_iff, not_exists, not_and, ne_eq,
          not_false_eq_true, implies_true, and_true]
        intro flags2 h2
        cases h2
        intro _ hnot
        exact absurd hbad hnot
      | false =>
        have hgood := (countPercentRejected_buildConfig_false flags).mp hrej
        cases hlog : env.setupLogger flags.logLevel flags.logFormat with
        | some err =>
          rw [Run_logger_error env args flags hparse hlen hrej err hlog]
          simp only [one_ne_zero, false_or, true_and, false_iff, not_exists, not_and, ne_eq,
            not_false_eq_true, implies_true, and_true]
          intro flags2 h2
          cases h2
          intro _ _ hl
          rw [hlog] at hl
          cases hl
        | none =>
          rw [Run_triggered env args flags hparse hlen hrej hlog]
          cases ht : env.triggerScalingEvent (finalConfig flags) with
          | true =>
            simp only [if_true, true_or, true_and, ne_eq, not_true_eq_false, false_implies,
              and_true, true_iff]
            exact ⟨flags, rfl, hlen, hgood, hlog, ht⟩
          | false =>
            simp only [Bool.false_eq_true, if_false, one_ne_zero, false_or, true_and, false_iff,
              not_exists, not_and, ne_eq, not_false_eq_true, implies_true, and_true]
            intro flags2 h2
            cases h2
            intro _ _ _ htrue
            rw [ht] at htrue
            cases htrue
    · rw [Run_wrong_arity env args flags hparse hlen]
      simp only [one_ne_zero, false_or, true_and, false_iff, not_exists, not_and, ne_eq,
        not_false_eq_true, implies_true, and_true]
      intro flags2 h2
      cases h2
      intro hl
      exact absurd hl hlen

theorem C3_witness :
    (ScaleOutCommand.Run
        (envFor ["-percent=50", "web"] { defaultFlags with percent := 50, args := ["web"] }
          none true)
        ["-percent=50", "web"]).code = 0 :=
  (C3_exit_status
    (envFor ["-percent=50", "web"] { defaultFlags with percent := 50, args := ["web"] } none true)
    ["-percent=50", "web"]).2.1.mpr
    ⟨{ defaultFlags with percent := 50, args := ["web"] },
      by decide, by decide, by decide, by decide, by decide⟩

/-! ## The config handed to the scaling package -/

/-- C8: for every argument list, every config `Run` passes to
`scale.TriggerScalingEvent` has `Direction = ScalingDirectionOut`. -/
theorem C8_direction_always_out (env : Env) (args : List String) (config : ScalingConfig)
    (hmem : config ∈ (ScaleOutCommand.Run env args).triggered) :
    config.Direction = some ScalingDirection.Out := by
  obtain ⟨flags, -, -, -, hcfg⟩ := triggered_cases env args config hmem
  rw [hcfg, finalConfig, setDirectionType_Direction, buildConfig_Direction]

theorem C8_witness :
    ({ Addr := "http://nomad:4646", Count := 2, Direction := some ScalingDirection.Out,
       DirectionType := some ScalingDirectionType.Count, JobID := "web", Percent := 0,
       TaskGroup := "" } : ScalingConfig) ∈
      (ScaleOutCommand.Run
        (envFor ["-address=http://nomad:4646", "-count=2", "web"]
          { defaultFlags with address := "http://nomad:4646", count := 2, args := ["web"] }
          none true)
        ["-address=http://nomad:4646", "-count=2", "web"]).triggered ∧
    ({ Addr := "http://nomad:4646", Count := 2, Direction := some ScalingDirection.Out,
       DirectionType := some ScalingDirectionType.Count, JobID := "web", Percent := 0,
       TaskGroup := "" } : ScalingConfig).Direction = some ScalingDirection.Out :=
  ⟨by decide,
   C8_direction_always_out
    (envFor ["-address=http://nomad:4646", "-count=2", "web"]
      { defaultFlags with address := "http://nomad:4646", count := 2, args := ["web"] }
      none true)
    ["-address=http://nomad:4646", "-count=2", "web"] _ (by decide)⟩

/-- C10: for every config `Run` passes to `scale.TriggerScalingEvent`, a
positive `Count` comes with direction type `Count` and a positive `Percent`
with direction type `Percent`; the two are never both positive, so the
assignment of lines 102-104 never overwrites that of lines 98-100. -/
theorem C10_direction_type_follows_positive_field (env : Env) (args : List String)
    (config : ScalingConfig) (hmem : config ∈ (ScaleOutCommand.Run env args).triggered) :
    (0 < config.Count → config.DirectionType = some ScalingDirectionType.Count) ∧
      (0 < config.Percent → config.DirectionType = some ScalingDirectionType.Percent) ∧
      ¬ (0 < config.Count ∧ 0 < config.Percent) := by
  obtain ⟨flags, -, -, hrej, hcfg⟩ := triggered_cases env args config hmem
  have hgood := (countPercentRejected_iff (buildConfig flags)).not.mp (by simp [hrej])
  have hC : config.Count = (buildConfig flags).Count := by
    rw [hcfg, finalConfig, setDirectionType_Count]
  have hP : config.Percent = (buildConfig flags).Percent := by
    rw [hcfg, finalConfig, setDirectionType_Percent]
  have hboth : ¬ (0 < config.Count ∧ 0 < config.Percent) := by
    rw [hC, hP]
    exact fun h => hgood (Or.inr h)
  refine ⟨?_, ?_, hboth⟩
  · intro hc
    have hp : ¬ (buildConfig flags).Percent > 0 := by
      rw [← hP]
      exact fun h => hboth ⟨hc, h⟩
    rw [hC] at hc
    rw [hcfg]
    simp only [finalConfig, setDirectionType]
    rw [if_pos hc, if_neg hp]
  · intro hp
    rw [hP] at hp
    rw [hcfg]
    simp only [finalConfig, setDirectionType]
    split_ifs <;> rfl

theorem C10_witness :
    (0 < (finalConfig { defaultFlags with percent := 15, args := ["web"] }).Count →
        (finalConfig { defaultFlags with percent := 15, args := ["web"] }).DirectionType =
          some ScalingDirectionType.Count) ∧
      (0 < (finalConfig { defaultFlags with percent := 15, args := ["web"] }).Percent →
        (finalConfig { defaultFlags with percent := 15, args := ["web"] }).DirectionType =
          some ScalingDirectionType.Percent) ∧
      ¬ (0 < (finalConfig { defaultFlags with percent := 15, args := ["web"] }).Count ∧
         0 < (finalConfig { defaultFlags with percent := 15, args := ["web"] }).Percent) :=
  C10_direction_type_follows_positive_field
    (envFor ["-percent=15", "web"] { defaultFlags with percent := 15, args := ["web"] } none true)
    ["-percent=15", "web"]
    (finalConfig { defaultFlags with percent := 15, args := ["web"] }) (by decide)

/-! ## Percent scaling -/

/-- C9: for a scale-out by percent `p > 0` of a group whose current count is
`c`, the config `Run` hands to `scale.TriggerScalingEvent` yields the target
count `c + ⌈c * p / 100⌉`, the ceiling being exact; `c = 10`, `p = 15` gives
delta 2, and `p = 50` takes 4 to 6 and 2 to 3. -/
theorem C9_percent_scale_out_target (env : Env) (args : List String) (flags : ParsedFlags)
    (hparse : env.flagParse args = some flags) (hpercent : 0 < flags.percent)
    (config : ScalingConfig) (hmem : config ∈ (ScaleOutCommand.Run env args).triggered)
    (c : Nat) :
    (∃ target, scaledCount config c = some target ∧
        (target : ℤ) = (c : ℤ) + ⌈((c : ℚ) * (flags.percent : ℚ)) / 100⌉) ∧
      percentDelta 10 15 = 2 ∧
      scaledCount (finalConfig { defaultFlags with percent := 50, args := ["web"] }) 4 = some 6 ∧
      scaledCount (finalConfig { defaultFlags with percent := 50, args := ["web"] }) 2 = some 3 := by
  refine ⟨?_, by decide, by decide, by decide⟩
  obtain ⟨flags2, hparse2, -, -, hcfg⟩ := triggered_cases env args config hmem
  rw [hparse] at hparse2
  cases hparse2
  have hD : config.Direction = some ScalingDirection.Out := by
    rw [hcfg, finalConfig, setDirectionType_Direction, buildConfig_Direction]
  have hP : config.Percent = flags.percent := by
    rw [hcfg, finalConfig, setDirectionType_Percent, buildConfig_Percent]
  have hT : config.DirectionType = some ScalingDirectionType.Percent := by
    have hp : (buildConfig flags).Percent > 0 := by rw [buildConfig_Percent]; exact hpercent
    rw [hcfg]
    simp only [finalConfig, setDirectionType]
    split_ifs <;> rfl
  refine ⟨c + percentDelta c flags.percent.toNat, ?_, ?_⟩
  · simp only [scaledCount, hD, hT, hP, applyDelta, scaleDelta]
  · have hcast : ((flags.percent.toNat : ℕ) : ℚ) = (flags.percent : ℚ) := by
      have h := Int.toNat_of_nonneg (le_of_lt hpercent)
      exact_mod_cast congrArg (fun z : ℤ => (z : ℚ)) h
    rw [Nat.cast_add, percentDelta_eq_ceil, hcast]

theorem C9_witness :
    ∃ target,
      scaledCount (finalConfig { defaultFlags with percent := 15, args := ["batch"] }) 10 =
        some target ∧
      (target : ℤ) = ((10 : ℕ) : ℤ) + ⌈(((10 : ℕ) : ℚ) * (((15 : ℤ)) : ℚ)) / 100⌉ :=
  (C9_percent_scale_out_target
    (envFor ["-percent=15", "batch"] { defaultFlags with percent := 15, args := ["batch"] }
      none true)
    ["-percent=15", "batch"] { defaultFlags with percent := 15, args := ["batch"] }
    (by decide) (by decide)
    (finalConfig { defaultFlags with percent := 15, args := ["batch"] }) (by decide) 10).1

end Levant
